import Mathlib

/-!
Verification development for the MCP calculator server repository.

The repository exposes calculator tools over a JSON-RPC-style HTTP
dispatcher (`src/http_server.py`, function `handle_mcp_request`), over the
MCP low-level `call_tool` handlers (`src/streamable_server.py`,
`src/stateful_server.py`), and — in the stateful variant — an event store
(`InMemoryEventStore`, imported from a module that is not part of this
source tree, so it is modelled from the specification).

We embed the dynamically typed Python values flowing through these
handlers as a `Json` inductive, and the relevant Python operator semantics
(`+`, `-`, `*`, `/`, `**`, `dict` subscripting, `==` against `0`) as total
Lean functions returning `Except PyExn`.  Python `float` results appear
only in the text of a successful division or a negative-exponent power;
they are rendered by `floatStr`, which is exact for terminating decimal
expansions (the only ones any claim exercises) and falls back to an exact
fraction rendering otherwise.  String `repr` escaping is elided (no claim
formats a string needing escapes).
-/

/-- JSON values as decoded by `json.loads`: Python `None`, `bool`, `int`,
`str`, `list` and `dict`.  Objects are association lists with the keys of
the decoded Python dict (unique; lookup takes the first binding).
Python floats do not occur in any request the claims quantify over and are
not part of the decoded-value model. -/
inductive Json where
  | null : Json
  | bool (b : Bool) : Json
  | num (n : Int) : Json
  | str (s : String) : Json
  | arr (items : List Json) : Json
  | obj (fields : List (String × Json)) : Json

/-- Python class name of a value, as used in `TypeError` /
`AttributeError` messages. -/
def pyTypeName : Json → String
  | .null => "NoneType"
  | .bool _ => "bool"
  | .num _ => "int"
  | .str _ => "str"
  | .arr _ => "list"
  | .obj _ => "dict"

mutual

/-- Python `repr` of a value (string escaping elided). -/
def pyRepr : Json → String
  | .null => "None"
  | .bool true => "True"
  | .bool false => "False"
  | .num n => toString n
  | .str s => "\x27" ++ s ++ "\x27"
  | .arr items => "[" ++ pyReprItems items ++ "]"
  | .obj fields => "\x7b" ++ pyReprFields fields ++ "\x7d"

/-- Comma-separated `repr`s of list items. -/
def pyReprItems : List Json → String
  | [] => ""
  | [x] => pyRepr x
  | x :: y :: rest => pyRepr x ++ ", " ++ pyReprItems (y :: rest)

/-- Comma-separated `repr`s of dict entries. -/
def pyReprFields : List (String × Json) → String
  | [] => ""
  | [(k, v)] => "\x27" ++ k ++ "\x27: " ++ pyRepr v
  | (k, v) :: e :: rest => "\x27" ++ k ++ "\x27: " ++ pyRepr v ++ ", " ++ pyReprFields (e :: rest)

end

/-- Python `str` of a value, as interpolated by the f-strings in the tool
handlers: identical to `repr` except on strings. -/
def pyStr : Json → String
  | .str s => s
  | v => pyRepr v

/-- Python `str` of an optional value (`None` when absent), as interpolated
by `f"Unknown tool: ..."` / `f"Method not found: ..."`. -/
def pyStrOpt : Option Json → String
  | none => "None"
  | some v => pyStr v

/-- Numeric view of a Python value: `bool` is an `int` subclass
(`True == 1`, `False == 0`); everything else is non-numeric. -/
def asNum : Json → Option Int
  | .num n => some n
  | .bool b => some (if b then 1 else 0)
  | _ => none

/-- Python `v == 0`, the divisor test in `divide_numbers`: true exactly for
`0` and `False` (no floats in the decoded-value model). -/
def pyEqZero : Json → Bool
  | .num n => n == 0
  | .bool b => b == false
  | _ => false

/-- Python exceptions raised inside the tool-dispatch code paths. -/
inductive PyExn where
  | keyError (key : String) : PyExn
  | typeError (m : String) : PyExn
  | valueError (m : String) : PyExn
  | zeroDivision (m : String) : PyExn

/-- Python `str(e)` of an exception, as interpolated by
`f"Error: ..."`: `KeyError` shows the quoted key, the rest show their
message. -/
def PyExn.message : PyExn → String
  | .keyError k => "\x27" ++ k ++ "\x27"
  | .typeError m => m
  | .valueError m => m
  | .zeroDivision m => m

/-- Rendering of a Python `float` result: exact for values with a
terminating decimal expansion (every value a claim exercises), exact
fraction notation otherwise.  Python renders floats by
shortest-round-trip `repr`; on terminating expansions of few digits the
two coincide. -/
def floatStr (q : Rat) : String :=
  if q.den = 1 then toString q.num ++ ".0"
  else
    match (List.range 17).find? (fun k => (q * (10 : Rat) ^ (k + 1)).den == 1) with
    | some k =>
        let p := k + 1
        let m := (q * (10 : Rat) ^ p).num
        let digits := toString m.natAbs
        let padded := String.mk (List.replicate (p + 1 - digits.length) '0') ++ digits
        (if q.num < 0 then "-" else "") ++ padded.dropRight p ++ "." ++ padded.takeRight p
    | none => toString q.num ++ "/" ++ toString q.den

/-- Result of Python `**`: `int` when the exponent is non-negative,
`float` otherwise. -/
inductive PyNumV where
  | intv (n : Int) : PyNumV
  | floatv (q : Rat) : PyNumV

/-- Python `str` of a numeric result. -/
def PyNumV.render : PyNumV → String
  | .intv n => toString n
  | .floatv q => floatStr q

/-- String repetition, for Python `str * int`. -/
def strRepeat (s : String) (n : Int) : String :=
  String.join (List.replicate n.toNat s)

/-- Python `a + b` on decoded values: numeric addition (bools coerce),
string and list concatenation, `TypeError` otherwise. -/
def pyAdd (a b : Json) : Except PyExn Json :=
  match a, b with
  | .str s, .str t => .ok (.str (s ++ t))
  | .arr xs, .arr ys => .ok (.arr (xs ++ ys))
  | _, _ =>
    match asNum a, asNum b with
    | some m, some n => .ok (.num (m + n))
    | _, _ => .error (.typeError
        ("unsupported operand type(s) for +: \x27" ++ pyTypeName a ++ "\x27 and \x27" ++ pyTypeName b ++ "\x27"))

/-- Python `a - b`: numeric only. -/
def pySub (a b : Json) : Except PyExn Json :=
  match asNum a, asNum b with
  | some m, some n => .ok (.num (m - n))
  | _, _ => .error (.typeError
      ("unsupported operand type(s) for -: \x27" ++ pyTypeName a ++ "\x27 and \x27" ++ pyTypeName b ++ "\x27"))

/-- Python sequence repetition `seq * int` (for `pyMul`). -/
def pySeqRepeat (v : Json) (n : Int) (other : Json) : Except PyExn Json :=
  match v with
  | .str s => .ok (.str (strRepeat s n))
  | .arr xs => .ok (.arr (List.flatten (List.replicate n.toNat xs)))
  | _ => .error (.typeError
      ("unsupported operand type(s) for *: \x27" ++ pyTypeName v ++ "\x27 and \x27" ++ pyTypeName other ++ "\x27"))

/-- Python `a * b`: numeric product, or sequence repetition when exactly
one side is numeric. -/
def pyMul (a b : Json) : Except PyExn Json :=
  match asNum a, asNum b with
  | some m, some n => .ok (.num (m * n))
  | some m, none => pySeqRepeat b m a
  | none, some n => pySeqRepeat a n b
  | none, none => .error (.typeError
      ("unsupported operand type(s) for *: \x27" ++ pyTypeName a ++ "\x27 and \x27" ++ pyTypeName b ++ "\x27"))

/-- Python true division `a / b`: always a `float` on numerics,
`ZeroDivisionError` on a zero divisor, `TypeError` otherwise. -/
def pyDiv (a b : Json) : Except PyExn Rat :=
  match asNum a, asNum b with
  | some m, some n =>
    if n = 0 then .error (.zeroDivision "division by zero")
    else .ok (Rat.divInt m n)
  | _, _ => .error (.typeError
      ("unsupported operand type(s) for /: \x27" ++ pyTypeName a ++ "\x27 and \x27" ++ pyTypeName b ++ "\x27"))

/-- Python `a ** b`: `int` for a non-negative exponent, `float` for a
negative exponent of a non-zero base, `ZeroDivisionError` for a negative
exponent of zero, `TypeError` on non-numerics. -/
def pyPow (a b : Json) : Except PyExn PyNumV :=
  match asNum a, asNum b with
  | some m, some e =>
    if 0 ≤ e then .ok (.intv (m ^ e.toNat))
    else if m = 0 then .error (.zeroDivision "0.0 cannot be raised to a negative power")
    else .ok (.floatv (Rat.divInt 1 (m ^ (-e).toNat)))
  | _, _ => .error (.typeError
      ("unsupported operand type(s) for ** or pow(): \x27" ++ pyTypeName a ++ "\x27 and \x27" ++ pyTypeName b ++ "\x27"))

/-- Python `v[key]` with a string key, as used by `arguments["a"]` in the
HTTP dispatcher: dict lookup raising `KeyError` on a missing key,
`TypeError` on non-dicts. -/
def pySubscript (v : Json) (key : String) : Except PyExn Json :=
  match v with
  | .obj fields =>
    match fields.lookup key with
    | some x => .ok x
    | none => .error (.keyError key)
  | .str _ => .error (.typeError "string indices must be integers")
  | .arr _ => .error (.typeError "list indices must be integers or slices, not str")
  | other => .error (.typeError ("\x27" ++ pyTypeName other ++ "\x27 object is not subscriptable"))

/-!
Calculator methods of `SimpleCalculatorServer` (`src/http_server.py`,
lines 183-203), invoked by the HTTP dispatcher's `tools/call` branch.
Each returns the formatted result string or propagates the Python
exception raised by the operation.
-/

/-- Embeds `SimpleCalculatorServer.add_numbers`. -/
def SimpleCalculatorServer.add_numbers (a b : Json) : Except PyExn String := do
  let r ← pyAdd a b
  .ok ("The sum of " ++ pyStr a ++ " and " ++ pyStr b ++ " is " ++ pyStr r)

/-- Embeds `SimpleCalculatorServer.subtract_numbers`. -/
def SimpleCalculatorServer.subtract_numbers (a b : Json) : Except PyExn String := do
  let r ← pySub a b
  .ok ("The difference of " ++ pyStr a ++ " and " ++ pyStr b ++ " is " ++ pyStr r)

/-- Embeds `SimpleCalculatorServer.multiply_numbers`. -/
def SimpleCalculatorServer.multiply_numbers (a b : Json) : Except PyExn String := do
  let r ← pyMul a b
  .ok ("The product of " ++ pyStr a ++ " and " ++ pyStr b ++ " is " ++ pyStr r)

/-- Embeds `SimpleCalculatorServer.divide_numbers`: the `b == 0` test
precedes the division, so a zero divisor yields the domain-error string
without raising. -/
def SimpleCalculatorServer.divide_numbers (a b : Json) : Except PyExn String :=
  if pyEqZero b then .ok "Error: Cannot divide by zero"
  else do
    let q ← pyDiv a b
    .ok ("The quotient of " ++ pyStr a ++ " divided by " ++ pyStr b ++ " is " ++ floatStr q)

/-- Embeds `SimpleCalculatorServer.power`. -/
def SimpleCalculatorServer.power (base exponent : Json) : Except PyExn String := do
  let r ← pyPow base exponent
  .ok (pyStr base ++ " raised to the power of " ++ pyStr exponent ++ " is " ++ r.render)

/-!
The HTTP JSON-RPC dispatcher `handle_mcp_request`
(`src/http_server.py`, lines 210-398).
-/

/-- A content item `{"type": "text", "text": t}` of a tool result. -/
def textContentJson (t : String) : Json :=
  .obj [("type", .str "text"), ("text", .str t)]

/-- The `result` mapping of a successful `tools/call`
(`src/http_server.py`, lines 336-343): content only, no `isError` key. -/
def callResult (t : String) : Json :=
  .obj [("content", .arr [textContentJson t])]

/-- The `result` mapping built when the tool dispatch raised
(`src/http_server.py`, lines 349-357): content plus `isError: true`. -/
def callErrorResult (t : String) : Json :=
  .obj [("content", .arr [textContentJson t]), ("isError", .bool true)]

/-- A success envelope `{"jsonrpc": "2.0", "id": rid, "result": r}`. -/
def jsonrpcOk (rid : Json) (r : Json) : Json :=
  .obj [("jsonrpc", .str "2.0"), ("id", rid), ("result", r)]

/-- An error envelope
`{"jsonrpc": "2.0", "id": rid, "error": {"code": c, "message": m}}`. -/
def jsonrpcErr (rid : Json) (c : Int) (m : String) : Json :=
  .obj [("jsonrpc", .str "2.0"), ("id", rid),
        ("error", .obj [("code", .num c), ("message", .str m)])]

/-- The `initialize` result (`src/http_server.py`, lines 227-236). -/
def initResultJson : Json :=
  .obj [("protocolVersion", .str "2024-11-05"),
        ("capabilities", .obj [("tools", .obj [])]),
        ("serverInfo", .obj [("name", .str "simple-calculator"), ("version", .str "1.0.0")])]

/-- One tool descriptor of the dispatcher's `tools/list` literal: name,
description, and an object schema whose properties are numbers. -/
def toolEntry (name desc : String) (props : List (String × String)) (req : List String) : Json :=
  .obj [("name", .str name), ("description", .str desc),
        ("inputSchema", .obj
          [("type", .str "object"),
           ("properties", .obj (props.map (fun p =>
              (p.1, Json.obj [("type", .str "number"), ("description", .str p.2)])))),
           ("required", .arr (req.map .str))])]

/-- The dispatcher's `tools/list` array (`src/http_server.py`,
lines 245-306): the four arithmetic tools plus `power`. -/
def httpToolsList : List Json :=
  [toolEntry "add_numbers" "Add two numbers together"
     [("a", "First number"), ("b", "Second number")] ["a", "b"],
   toolEntry "subtract_numbers" "Subtract second number from first"
     [("a", "First number"), ("b", "Second number")] ["a", "b"],
   toolEntry "multiply_numbers" "Multiply two numbers"
     [("a", "First number"), ("b", "Second number")] ["a", "b"],
   toolEntry "divide_numbers" "Divide first number by second"
     [("a", "Dividend"), ("b", "Divisor")] ["a", "b"],
   toolEntry "power" "Raise base to exponent power"
     [("base", "Base number"), ("exponent", "Exponent")] ["base", "exponent"]]

/-- The inner `try` of the `tools/call` branch (`src/http_server.py`,
lines 319-331): the chain of `tool_name ==` comparisons, argument
subscripts (evaluated left to right), calls into the
`SimpleCalculatorServer` methods, and the `ValueError` for an unknown
tool.  `toolName` is `params.get("name")`, so `none` models a missing
`name` key (formatted as `None` in the error message). -/
def dispatchToolCall (toolName : Option Json) (arguments : Json) : Except PyExn String :=
  match toolName with
  | some (.str s) =>
    if s = "add_numbers" then do
      let a ← pySubscript arguments "a"
      let b ← pySubscript arguments "b"
      SimpleCalculatorServer.add_numbers a b
    else if s = "subtract_numbers" then do
      let a ← pySubscript arguments "a"
      let b ← pySubscript arguments "b"
      SimpleCalculatorServer.subtract_numbers a b
    else if s = "multiply_numbers" then do
      let a ← pySubscript arguments "a"
      let b ← pySubscript arguments "b"
      SimpleCalculatorServer.multiply_numbers a b
    else if s = "divide_numbers" then do
      let a ← pySubscript arguments "a"
      let b ← pySubscript arguments "b"
      SimpleCalculatorServer.divide_numbers a b
    else if s = "power" then do
      let base ← pySubscript arguments "base"
      let exponent ← pySubscript arguments "exponent"
      SimpleCalculatorServer.power base exponent
    else .error (.valueError ("Unknown tool: " ++ s))
  | other => .error (.valueError ("Unknown tool: " ++ pyStrOpt other))

/-- Outcome of one dispatcher invocation: an HTTP response with a status
code and a JSON body, or an exception escaping the handler (which happens
exactly when the decoded request is not a dict, since the outer `except`
block then raises again while extracting the id). -/
inductive DispatchOutcome where
  | response (status : Nat) (body : Json) : DispatchOutcome
  | escaped (message : String) : DispatchOutcome

/-- Python `method == s` for the routing comparisons: true exactly when
the value is the string `s`. -/
def pyIsStr (v : Option Json) (s : String) : Bool :=
  match v with
  | some (.str t) => t == s
  | _ => false

/-- Routing on a decoded request dict (`src/http_server.py`,
lines 220-369): `method`, `params` (default `{}`) and `id` have already
been extracted.  `initialize` and `tools/list` answer from literals;
`tools/call` reads `name`/`arguments` from `params` — when `params` is not
a dict the `.get` raises `AttributeError`, which the outer `except` turns
into a `-32603` envelope with HTTP status 500 — and wraps the dispatch
outcome as a success envelope either way; any other method yields the
`-32601` envelope (HTTP status 200, the `JSONResponse` default). -/
def handleDecoded (method : Option Json) (params rid : Json) : DispatchOutcome :=
  if pyIsStr method "initialize" then
    .response 200 (jsonrpcOk rid initResultJson)
  else if pyIsStr method "tools/list" then
    .response 200 (jsonrpcOk rid (.obj [("tools", .arr httpToolsList)]))
  else if pyIsStr method "tools/call" then
    match params with
    | .obj pfields =>
      let toolName := pfields.lookup "name"
      let arguments := (pfields.lookup "arguments").getD (.obj [])
      match dispatchToolCall toolName arguments with
      | .ok t => .response 200 (jsonrpcOk rid (callResult t))
      | .error e => .response 200 (jsonrpcOk rid (callErrorResult ("Error: " ++ e.message)))
    | p => .response 500 (jsonrpcErr rid (-32603)
        ("Internal error: \x27" ++ pyTypeName p ++ "\x27 object has no attribute \x27get\x27"))
  else
    .response 200 (jsonrpcErr rid (-32601) ("Method not found: " ++ pyStrOpt method))

/-- Outcome of decoding the request body: `jsonError` is a body that is
UTF-8 text but not valid JSON (`json.loads` raises
`json.JSONDecodeError`); `unicodeError` is a body that is not valid UTF-8
(`json.loads` raises `UnicodeDecodeError` — not a `json.JSONDecodeError` —
carrying its `str(e)`); `ok` is the decoded value. -/
inductive DecodeResult where
  | jsonError : DecodeResult
  | unicodeError (m : String) : DecodeResult
  | ok (v : Json) : DecodeResult

/-- Embeds `handle_mcp_request` (`src/http_server.py`, lines 210-398).
The input is the outcome of `json.loads` on the request body.  A
`json.JSONDecodeError` is answered by the `except` at lines 374-385: the
`-32700` envelope with `id = null`, HTTP status 400.  A body that is not
valid UTF-8 raises `UnicodeDecodeError` instead, which that `except` does
not catch: the generic handler at lines 386-398 answers `-32603` with
HTTP status 500, and its id extraction finds `json_rpc_request` unbound,
so the id is null.  A decoded value that is not a dict makes both the
`.get` at line 220 and the id extraction inside the generic `except`
raise, so the exception escapes the handler. -/
def handle_mcp_request (input : DecodeResult) : DispatchOutcome :=
  match input with
  | .jsonError => .response 400 (jsonrpcErr .null (-32700) "Parse error")
  | .unicodeError m => .response 500 (jsonrpcErr .null (-32603) ("Internal error: " ++ m))
  | .ok (.obj fields) =>
    handleDecoded (fields.lookup "method")
      ((fields.lookup "params").getD (.obj []))
      ((fields.lookup "id").getD .null)
  | .ok other => .escaped ("\x27" ++ pyTypeName other ++ "\x27 object has no attribute \x27get\x27")

/-- A canonical `tools/call` request dict with a string tool name, a dict
of arguments and a request id, as sent by a client invoking a tool. -/
def toolsCallReq (name : String) (args : List (String × Json)) (rid : Json) : Json :=
  .obj [("jsonrpc", .str "2.0"), ("method", .str "tools/call"),
        ("params", .obj [("name", .str name), ("arguments", .obj args)]),
        ("id", rid)]

/-!
The MCP low-level `call_tool` handlers of `src/streamable_server.py`
(lines 51-117) and `src/stateful_server.py` (lines 55-218).  Both fetch
arguments with `dict.get` defaults, return a list of `TextContent`, and
convert any exception into an `Error: ...` content item; the stateful
variant additionally sends log notifications (side effects on the session,
not part of the returned content) and has the extra `slow_calculation`
tool.
-/

/-- A `types.TextContent` item: `type` is always `"text"`. -/
structure TextContent where
  type : String
  text : String

/-- The body of the streamable server's `call_tool` before its
`except` clause (`src/streamable_server.py`, lines 54-114): argument
defaults `0` (divisor `1`, power base `0`, exponent `1`), the
division-by-zero guard, and the unknown-tool content fallthrough. -/
def streamCallToolBody (name : String) (args : List (String × Json)) :
    Except PyExn (List TextContent) :=
  if name = "add_numbers" then do
    let a := (args.lookup "a").getD (.num 0)
    let b := (args.lookup "b").getD (.num 0)
    let r ← pyAdd a b
    .ok [⟨"text", "The sum of " ++ pyStr a ++ " and " ++ pyStr b ++ " is " ++ pyStr r⟩]
  else if name = "subtract_numbers" then do
    let a := (args.lookup "a").getD (.num 0)
    let b := (args.lookup "b").getD (.num 0)
    let r ← pySub a b
    .ok [⟨"text", "The difference of " ++ pyStr a ++ " and " ++ pyStr b ++ " is " ++ pyStr r⟩]
  else if name = "multiply_numbers" then do
    let a := (args.lookup "a").getD (.num 0)
    let b := (args.lookup "b").getD (.num 0)
    let r ← pyMul a b
    .ok [⟨"text", "The product of " ++ pyStr a ++ " and " ++ pyStr b ++ " is " ++ pyStr r⟩]
  else if name = "divide_numbers" then
    let a := (args.lookup "a").getD (.num 0)
    let b := (args.lookup "b").getD (.num 1)
    if pyEqZero b then .ok [⟨"text", "Error: Cannot divide by zero"⟩]
    else do
      let q ← pyDiv a b
      .ok [⟨"text", "The quotient of " ++ pyStr a ++ " divided by " ++ pyStr b ++ " is " ++ floatStr q⟩]
  else if name = "power" then do
    let base := (args.lookup "base").getD (.num 0)
    let exponent := (args.lookup "exponent").getD (.num 1)
    let r ← pyPow base exponent
    .ok [⟨"text", pyStr base ++ " raised to the power of " ++ pyStr exponent ++ " is " ++ r.render⟩]
  else .ok [⟨"text", "Unknown tool: " ++ name⟩]

/-- Embeds the streamable server's `call_tool`: the body wrapped by the
`except Exception` clause that turns a raised exception into a single
`Error: ...` content item (`src/streamable_server.py`, lines 116-117). -/
def streamCallTool (name : String) (args : List (String × Json)) : List TextContent :=
  match streamCallToolBody name args with
  | .ok r => r
  | .error e => [⟨"text", "Error: " ++ e.message⟩]

/-- The body of the stateful server's `call_tool` before its `except`
clause (`src/stateful_server.py`, lines 60-209): same five calculator
branches as the streamable server (the interleaved
`send_log_message` notifications affect only the session stream, not the
returned content), plus `slow_calculation`, whose `range(count)` loop
requires an integral `count` (default `3`) and, when it sleeps
(`count ≥ 2`), a numeric `interval` (default `1.0`). -/
def statefulCallToolBody (name : String) (args : List (String × Json)) :
    Except PyExn (List TextContent) :=
  if name = "slow_calculation" then
    let count := (args.lookup "count").getD (.num 3)
    let interval := (args.lookup "interval").getD (.num 1)
    match asNum count with
    | none => .error (.typeError
        ("\x27" ++ pyTypeName count ++ "\x27 object cannot be interpreted as an integer"))
    | some n =>
      if 2 ≤ n ∧ asNum interval = none then
        .error (.typeError
          ("\x27" ++ pyTypeName interval ++ "\x27 object cannot be interpreted as a number"))
      else .ok [⟨"text", "Completed slow calculation with " ++ pyStr count ++ " steps"⟩]
  else if name = "add_numbers" ∨ name = "subtract_numbers" ∨ name = "multiply_numbers"
       ∨ name = "divide_numbers" ∨ name = "power" then
    streamCallToolBody name args
  else .ok [⟨"text", "Unknown tool: " ++ name⟩]

/-- Embeds the stateful server's `call_tool`: body plus the
exception-to-content `except` clause (`src/stateful_server.py`,
lines 211-218). -/
def statefulCallTool (name : String) (args : List (String × Json)) : List TextContent :=
  match statefulCallToolBody name args with
  | .ok r => r
  | .error e => [⟨"text", "Error: " ++ e.message⟩]

/-- One tool descriptor of the streamable server's `list_tools`
(`src/streamable_server.py`, lines 122-183): same content as the HTTP
descriptors but with the `required` list before `properties`. -/
def streamToolEntry (name desc : String) (req : List String) (props : List (String × String)) : Json :=
  .obj [("name", .str name), ("description", .str desc),
        ("inputSchema", .obj
          [("type", .str "object"),
           ("required", .arr (req.map .str)),
           ("properties", .obj (props.map (fun p =>
              (p.1, Json.obj [("type", .str "number"), ("description", .str p.2)]))))])]

/-- The streamable server's `list_tools` array: every calculator tool
declares its argument fields as `required`. -/
def streamToolsList : List Json :=
  [streamToolEntry "add_numbers" "Add two numbers together"
     ["a", "b"] [("a", "First number"), ("b", "Second number")],
   streamToolEntry "subtract_numbers" "Subtract second number from first"
     ["a", "b"] [("a", "First number"), ("b", "Second number")],
   streamToolEntry "multiply_numbers" "Multiply two numbers"
     ["a", "b"] [("a", "First number"), ("b", "Second number")],
   streamToolEntry "divide_numbers" "Divide first number by second"
     ["a", "b"] [("a", "Dividend"), ("b", "Divisor")],
   streamToolEntry "power" "Raise base to exponent power"
     ["base", "exponent"] [("base", "Base number"), ("exponent", "Exponent")]]

/-- Key lookup on a JSON object (`none` on other values). -/
def getKey (v : Json) (k : String) : Option Json :=
  match v with
  | .obj fields => fields.lookup k
  | _ => none

/-- Whether a JSON value is an object (a mapping). -/
def isObjB : Json → Bool
  | .obj _ => true
  | _ => false

/-!
Event store.  `src/stateful_server.py` imports `InMemoryEventStore` from
an `event_store` module that is not part of this source tree, so the store
is modelled from the specification (sections 3 "Event", 4.5 "Event Store").
-/

/-- Modelled from the spec: the `kind` of an event
(`Log | Progress | ResourceUpdate | Response`, section 3). -/
inductive EventKind where
  | log : EventKind
  | progress : EventKind
  | resourceUpdate : EventKind
  | response : EventKind

/-- Modelled from the spec: an event of a stream — a position (strictly
increasing per stream starting at 1), an opaque payload (a notification or
response envelope) and a kind (section 3). -/
structure EventMessage where
  position : Nat
  payload : Json
  kind : EventKind

/-- Modelled from the spec: the in-memory event store `InMemoryEventStore`
(section 4.5) — an append-only per-stream log, here an association list
from stream id to the events of that stream in append order. -/
structure InMemoryEventStore where
  streams : List (String × List EventMessage)

/-- Replace the binding of `sid` (or add one) in the stream table. -/
def updateStream : List (String × List EventMessage) → String → List EventMessage →
    List (String × List EventMessage)
  | [], sid, evs => [(sid, evs)]
  | (k, v) :: rest, sid, evs =>
    if k = sid then (sid, evs) :: rest else (k, v) :: updateStream rest sid evs

/-- The events of a stream, in append order (empty for an unknown
stream). -/
def InMemoryEventStore.eventsOf (st : InMemoryEventStore) (sid : String) : List EventMessage :=
  (st.streams.lookup sid).getD []

/-- Modelled from the spec: `append(stream-id, payload, kind)` assigns the
next position of the stream (one past the last, starting at 1) and returns
it together with the updated store (section 4.5). -/
def InMemoryEventStore.append (st : InMemoryEventStore) (sid : String)
    (payload : Json) (kind : EventKind) : Nat × InMemoryEventStore :=
  let cur := st.eventsOf sid
  let pos := cur.length + 1
  (pos, ⟨updateStream st.streams sid (cur ++ [⟨pos, payload, kind⟩])⟩)

/-- Modelled from the spec: `replay(stream-id, after-position)` returns the
events of the stream with position greater than `after`, in log order
(section 4.5). -/
def InMemoryEventStore.replay (st : InMemoryEventStore) (sid : String)
    (after : Nat) : List EventMessage :=
  (st.eventsOf sid).filter (fun e => decide (after < e.position))

/-- The positions of a stream's events, in log order. -/
def positionsOf (st : InMemoryEventStore) (sid : String) : List Nat :=
  (st.eventsOf sid).map EventMessage.position

/-- Stores reachable from the empty store by a sequence of appends — every
state the in-memory store ever takes, appends being atomic with respect to
position assignment. -/
inductive Reachable : InMemoryEventStore → Prop where
  | empty : Reachable ⟨[]⟩
  | append (st : InMemoryEventStore) (sid : String) (payload : Json) (kind : EventKind) :
      Reachable st → Reachable (st.append sid payload kind).2

/-- Association-list lookup through a cons, as an `if`. -/
theorem lookup_cons_ite {β : Type} (k a : String) (v : β) (l : List (String × β)) :
    ((k, v) :: l).lookup a = if a = k then some v else l.lookup a := by
  by_cases h : a = k
  · subst h; simp [List.lookup_cons]
  · have hb : (a == k) = false := by simp [h]
    simp [List.lookup_cons, hb, h]

/-- Looking a stream up after an update: the updated stream has the new
events, every other stream is untouched. -/
theorem lookup_updateStream (l : List (String × List EventMessage)) (sid sid' : String)
    (evs : List EventMessage) :
    (updateStream l sid evs).lookup sid' = if sid' = sid then some evs else l.lookup sid' := by
  induction l with
  | nil => simp [updateStream, lookup_cons_ite]
  | cons kv rest ih =>
    obtain ⟨k, v⟩ := kv
    by_cases hk : k = sid
    · subst hk
      by_cases h : sid' = k <;> simp [updateStream, lookup_cons_ite, h]
    · by_cases h2 : sid' = k
      · subst h2
        have h3 : sid' ≠ sid := hk
        simp [updateStream, hk, lookup_cons_ite, h3]
      · simp [updateStream, hk, lookup_cons_ite, h2, ih]

/-- Appending to a stream extends exactly that stream by the next
position. -/
theorem eventsOf_append_self (st : InMemoryEventStore) (sid : String)
    (payload : Json) (kind : EventKind) :
    (st.append sid payload kind).2.eventsOf sid
      = st.eventsOf sid ++ [⟨(st.eventsOf sid).length + 1, payload, kind⟩] := by
  simp [InMemoryEventStore.append, InMemoryEventStore.eventsOf, lookup_updateStream]

/-- Appending to one stream leaves every other stream unchanged. -/
theorem eventsOf_append_other (st : InMemoryEventStore) (sid sid' : String)
    (payload : Json) (kind : EventKind) (h : sid' ≠ sid) :
    (st.append sid payload kind).2.eventsOf sid' = st.eventsOf sid' := by
  simp [InMemoryEventStore.append, InMemoryEventStore.eventsOf, lookup_updateStream, h]

/-- In every reachable store the positions of each stream are exactly
`1, 2, …, n`: gapless, strictly increasing, starting at 1. -/
theorem positions_reachable {st : InMemoryEventStore} (h : Reachable st) :
    ∀ sid, positionsOf st sid = List.range' 1 (st.eventsOf sid).length := by
  induction h with
  | empty => intro sid; rfl
  | append st0 sid0 payload kind _ ih =>
    intro sid
    by_cases hs : sid = sid0
    · subst hs
      have hold := ih sid
      rw [positionsOf] at hold
      rw [positionsOf, eventsOf_append_self, List.map_append, hold]
      simp [List.range'_1_concat, Nat.add_comm]
    · rw [positionsOf, eventsOf_append_other st0 sid0 sid payload kind hs]
      exact ih sid

/-- Mapping positions commutes with the replay filter. -/
theorem map_position_filter (l : List EventMessage) (p : Nat) :
    (l.filter (fun e => decide (p < e.position))).map EventMessage.position
      = (l.map EventMessage.position).filter (fun q => decide (p < q)) := by
  induction l with
  | nil => rfl
  | cons e rest ih =>
    by_cases h : p < e.position <;> simp [List.filter, h, ih]

/-!
Helper lemmas about the dispatcher's envelopes.
-/

/-- Bind on `Except` of a success, for unfolding the `do` blocks of the
tool handlers. -/
theorem except_ok_bind {ε α β : Type} (a : α) (f : α → Except ε β) :
    (Except.ok a : Except ε α) >>= f = f a := rfl

/-- Bind on `Except` of a failure: the exception propagates. -/
theorem except_error_bind {ε α β : Type} (e : ε) (f : α → Except ε β) :
    (Except.error e : Except ε α) >>= f = Except.error e := rfl

/-- The id a response must carry for a given dispatcher input: the
request's `id` member when the decoded value has one, `null` otherwise
(in particular for either decode failure). -/
def requestIdOf : DecodeResult → Json
  | .jsonError => .null
  | .unicodeError _ => .null
  | .ok (.obj fields) => (fields.lookup "id").getD .null
  | .ok _ => .null

/-- Well-formedness of a response body: it carries the request id, and
exactly one of a `result` member (a mapping) or an `error` member (an
object with integer `code` and string `message`) — never both, never
neither. -/
def envelopeOk (rid body : Json) : Prop :=
  getKey body "id" = some rid ∧
  ((∃ r, getKey body "result" = some r ∧ isObjB r = true) ∧ getKey body "error" = none
   ∨ getKey body "result" = none ∧
       ∃ c m, getKey body "error" = some (.obj [("code", .num c), ("message", .str m)]))

/-- Well-formedness of a dispatcher outcome: every produced response body
is a well-formed envelope (an escaped exception produces no response). -/
def outcomeOk (rid : Json) : DispatchOutcome → Prop
  | .escaped _ => True
  | .response _ body => envelopeOk rid body

/-- A success envelope with an object result is well-formed. -/
theorem envelopeOk_ok (rid r : Json) (h : isObjB r = true) : envelopeOk rid (jsonrpcOk rid r) :=
  ⟨rfl, Or.inl ⟨⟨r, rfl, h⟩, rfl⟩⟩

/-- An error envelope is well-formed. -/
theorem envelopeOk_err (rid : Json) (c : Int) (m : String) : envelopeOk rid (jsonrpcErr rid c m) :=
  ⟨rfl, Or.inr ⟨rfl, c, m, rfl⟩⟩

/-- Every branch of the routing stage produces a well-formed envelope for
the id it was handed (or lets the exception escape). -/
theorem handleDecoded_ok (method : Option Json) (params rid : Json) :
    outcomeOk rid (handleDecoded method params rid) := by
  unfold handleDecoded
  by_cases h1 : pyIsStr method "initialize"
  · simp only [h1, if_true]
    exact envelopeOk_ok _ _ rfl
  · by_cases h2 : pyIsStr method "tools/list"
    · simp only [h1, h2, if_true, if_false, Bool.false_eq_true]
      exact envelopeOk_ok _ _ rfl
    · by_cases h3 : pyIsStr method "tools/call"
      · simp only [h1, h2, h3, if_true, if_false, Bool.false_eq_true]
        cases params with
        | obj pfields =>
          cases hdt : dispatchToolCall (pfields.lookup "name")
              ((pfields.lookup "arguments").getD (.obj [])) with
          | ok t => simp only [hdt]; exact envelopeOk_ok _ _ rfl
          | error e => simp only [hdt]; exact envelopeOk_ok _ _ rfl
        | null => exact envelopeOk_err _ _ _
        | bool b => exact envelopeOk_err _ _ _
        | num n => exact envelopeOk_err _ _ _
        | str s => exact envelopeOk_err _ _ _
        | arr items => exact envelopeOk_err _ _ _
      · simp only [h1, h2, h3, if_false, Bool.false_eq_true]
        exact envelopeOk_err _ _ _

/-- A canonical `tools/call` request routes to the tool dispatch and wraps
its outcome as a success envelope. -/
theorem handle_toolsCall (name : String) (args : List (String × Json)) (rid : Json) :
    handle_mcp_request (.ok (toolsCallReq name args rid)) =
      match dispatchToolCall (some (.str name)) (.obj args) with
      | .ok t => .response 200 (jsonrpcOk rid (callResult t))
      | .error e => .response 200 (jsonrpcOk rid (callErrorResult ("Error: " ++ e.message))) := rfl

/-- A zero divisor short-circuits the dispatcher's `divide_numbers` call:
the `KeyError` for a missing dividend aside, the division-by-zero guard
fires before any arithmetic. -/
theorem dispatch_divide_zero (args : List (String × Json))
    (hb : args.lookup "b" = some (.num 0)) :
    dispatchToolCall (some (.str "divide_numbers")) (.obj args)
      = match args.lookup "a" with
        | some _ => .ok "Error: Cannot divide by zero"
        | none => .error (.keyError "a") := by
  cases ha : args.lookup "a" with
  | none => simp [dispatchToolCall, pySubscript, ha, except_error_bind]
  | some a =>
    simp [dispatchToolCall, pySubscript, ha, hb, except_ok_bind,
      SimpleCalculatorServer.divide_numbers, pyEqZero]

/-- C1: every `tools/call` invocation of `divide_numbers` whose divisor
argument `b` equals 0 is answered inside a successful result envelope —
HTTP status 200, a `result` member and no `error` member — with the
domain-error content `Error: Cannot divide by zero` whenever the dividend
is present (without it the result still reports the `KeyError` as
content); the streamable server's `call_tool` returns the domain-error
content unconditionally.  No protocol-level error envelope is produced and
no exception escapes. -/
theorem divide_by_zero_domain_error (args : List (String × Json)) (rid : Json)
    (hb : args.lookup "b" = some (.num 0)) :
    (∃ body, handle_mcp_request (.ok (toolsCallReq "divide_numbers" args rid)) = .response 200 body
        ∧ (∃ r, getKey body "result" = some r) ∧ getKey body "error" = none)
    ∧ (∀ a, args.lookup "a" = some a →
        handle_mcp_request (.ok (toolsCallReq "divide_numbers" args rid))
          = .response 200 (jsonrpcOk rid (callResult "Error: Cannot divide by zero")))
    ∧ streamCallTool "divide_numbers" args = [⟨"text", "Error: Cannot divide by zero"⟩] := by
  have hred := handle_toolsCall "divide_numbers" args rid
  have hd := dispatch_divide_zero args hb
  refine ⟨?_, ?_, ?_⟩
  · cases ha : args.lookup "a" with
    | none =>
      rw [ha] at hd
      simp only [hred, hd]
      exact ⟨_, rfl, ⟨_, rfl⟩, rfl⟩
    | some a =>
      rw [ha] at hd
      simp only [hred, hd]
      exact ⟨_, rfl, ⟨_, rfl⟩, rfl⟩
  · intro a ha
    rw [ha] at hd
    simp only [hred, hd]
  · simp [streamCallTool, streamCallToolBody, hb, pyEqZero]

/-- The divide-by-zero theorem instantiated at dividend 10, divisor 0,
request id 1. -/
theorem divide_by_zero_domain_error_witness :
    handle_mcp_request (.ok (toolsCallReq "divide_numbers" [("a", .num 10), ("b", .num 0)] (.num 1)))
      = .response 200 (jsonrpcOk (.num 1) (callResult "Error: Cannot divide by zero"))
    ∧ streamCallTool "divide_numbers" [("a", .num 10), ("b", .num 0)]
      = [⟨"text", "Error: Cannot divide by zero"⟩] := by
  have h := divide_by_zero_domain_error [("a", .num 10), ("b", .num 0)] (.num 1) rfl
  exact ⟨h.2.1 (.num 10) rfl, h.2.2⟩

/-- The `str(e)` of the `UnicodeDecodeError` raised by a request body of
the single byte 0xFF, interpolated by the generic handler into
`f"Internal error: ..."`. -/
def utf8DecodeMsg : String :=
  "\x27utf-8\x27 codec can\x27t decode byte 0xff in position 0: invalid start byte"

/-- C2 counterexample: not every input that is not well-formed JSON is
answered with code -32700 and id null — a request body of the single byte
0xFF is not well-formed JSON, but `json.loads` raises
`UnicodeDecodeError`, which the `except json.JSONDecodeError` clause does
not catch: the generic handler answers it with code -32603
(HTTP status 500), not -32700. -/
theorem non_utf8_body_not_parse_error :
    handle_mcp_request (.unicodeError utf8DecodeMsg)
      = .response 500 (jsonrpcErr .null (-32603) ("Internal error: " ++ utf8DecodeMsg))
    ∧ getKey (jsonrpcErr .null (-32603) ("Internal error: " ++ utf8DecodeMsg)) "error"
        = some (.obj [("code", .num (-32603)),
            ("message", .str ("Internal error: " ++ utf8DecodeMsg))])
    ∧ (-32603 : Int) ≠ -32700 :=
  ⟨rfl, rfl, by decide⟩

/-- C2 amended: an input failing JSON decoding with `json.JSONDecodeError`
(a UTF-8 body that is not valid JSON — the decode failure carries no
content, so the answer cannot depend on the payload) is answered by the
parse-error envelope, code -32700 with id null, HTTP status 400; a body
that is not valid UTF-8 instead raises `UnicodeDecodeError`, which falls
through to the generic handler: code -32603, still with id null, HTTP
status 500. -/
theorem decode_failure_envelopes :
    handle_mcp_request .jsonError = .response 400 (jsonrpcErr .null (-32700) "Parse error")
    ∧ getKey (jsonrpcErr .null (-32700) "Parse error") "error"
        = some (.obj [("code", .num (-32700)), ("message", .str "Parse error")])
    ∧ getKey (jsonrpcErr .null (-32700) "Parse error") "id" = some .null
    ∧ getKey (jsonrpcErr .null (-32700) "Parse error") "result" = none
    ∧ (∀ m, handle_mcp_request (.unicodeError m)
        = .response 500 (jsonrpcErr .null (-32603) ("Internal error: " ++ m)))
    ∧ (∀ m, getKey (jsonrpcErr .null (-32603) ("Internal error: " ++ m)) "id" = some .null) :=
  ⟨rfl, rfl, rfl, rfl, fun _ => rfl, fun _ => rfl⟩

/-- C4: `tools/call` of `power` with base 2 and exponent 10 is answered
with content text exactly `2 raised to the power of 10 is 1024`, over the
HTTP dispatcher and over the streamable server's `call_tool` alike. -/
theorem power_two_ten_text :
    handle_mcp_request (.ok (toolsCallReq "power" [("base", .num 2), ("exponent", .num 10)] (.num 3)))
      = .response 200 (jsonrpcOk (.num 3) (callResult "2 raised to the power of 10 is 1024"))
    ∧ streamCallTool "power" [("base", .num 2), ("exponent", .num 10)]
      = [⟨"text", "2 raised to the power of 10 is 1024"⟩] :=
  ⟨rfl, rfl⟩

/-- C5 counterexample: a `tools/call` whose params violate the declared
schema (both required fields of `add_numbers` missing) is not rejected
with an invalid-params failure: the streamable `call_tool` substitutes the
defaults and computes the sum, and the HTTP dispatcher answers with a
success envelope whose content reports the `KeyError` — no protocol-level
InvalidParams (-32602) error exists anywhere in the code. -/
theorem schema_violation_computes_counterexample :
    streamCallTool "add_numbers" [] = [⟨"text", "The sum of 0 and 0 is 0"⟩]
    ∧ handle_mcp_request (.ok (toolsCallReq "add_numbers" [] (.num 1)))
        = .response 200 (jsonrpcOk (.num 1) (callErrorResult "Error: \x27a\x27")) :=
  ⟨rfl, rfl⟩

/-- C5 amended: no schema validation is performed.  Whatever the params of
a `tools/call` are, the dispatcher's tools/call path answers with a
success envelope — a `result` member and no `error` member, hence never an
InvalidParams protocol error — and the streaming `call_tool` substitutes
the declared defaults and computes a result when required fields are
missing. -/
theorem schema_violation_no_invalid_params (pfields : List (String × Json)) (rid : Json) :
    (∃ body,
        handle_mcp_request (.ok (.obj [("jsonrpc", .str "2.0"), ("method", .str "tools/call"),
            ("params", .obj pfields), ("id", rid)])) = .response 200 body
        ∧ (∃ r, getKey body "result" = some r) ∧ getKey body "error" = none)
    ∧ streamCallTool "add_numbers" [] = [⟨"text", "The sum of 0 and 0 is 0"⟩] := by
  constructor
  · have hred : handle_mcp_request (.ok (.obj [("jsonrpc", .str "2.0"),
        ("method", .str "tools/call"), ("params", .obj pfields), ("id", rid)])) =
        match dispatchToolCall (pfields.lookup "name")
            ((pfields.lookup "arguments").getD (.obj [])) with
        | .ok t => .response 200 (jsonrpcOk rid (callResult t))
        | .error e => .response 200 (jsonrpcOk rid (callErrorResult ("Error: " ++ e.message))) := rfl
    cases hdt : dispatchToolCall (pfields.lookup "name")
        ((pfields.lookup "arguments").getD (.obj [])) with
    | ok t =>
      simp only [hred, hdt]
      exact ⟨_, rfl, ⟨_, rfl⟩, rfl⟩
    | error e =>
      simp only [hred, hdt]
      exact ⟨_, rfl, ⟨_, rfl⟩, rfl⟩
  · rfl

/-- C6: a `tools/call` naming an unregistered tool is answered by a
success-shaped envelope whose content flags the unknown tool: the HTTP
dispatcher wraps the raised `ValueError` as an `isError` result with no
protocol-level `error` member, and the streamable `call_tool` returns the
unknown-tool content item. -/
theorem unknown_tool_success_envelope (name : String) (args : List (String × Json)) (rid : Json)
    (h1 : name ≠ "add_numbers") (h2 : name ≠ "subtract_numbers")
    (h3 : name ≠ "multiply_numbers") (h4 : name ≠ "divide_numbers") (h5 : name ≠ "power") :
    handle_mcp_request (.ok (toolsCallReq name args rid))
      = .response 200 (jsonrpcOk rid (callErrorResult ("Error: Unknown tool: " ++ name)))
    ∧ getKey (jsonrpcOk rid (callErrorResult ("Error: Unknown tool: " ++ name))) "error" = none
    ∧ streamCallTool name args = [⟨"text", "Unknown tool: " ++ name⟩] := by
  have hd : dispatchToolCall (some (.str name)) (.obj args)
      = .error (.valueError ("Unknown tool: " ++ name)) := by
    simp [dispatchToolCall, h1, h2, h3, h4, h5]
  refine ⟨?_, rfl, ?_⟩
  · rw [handle_toolsCall name args rid, hd]
    rfl
  · simp [streamCallTool, streamCallToolBody, h1, h2, h3, h4, h5]

/-- The unknown-tool theorem instantiated at tool name `bogus_tool`. -/
theorem unknown_tool_success_envelope_witness :
    handle_mcp_request (.ok (toolsCallReq "bogus_tool" [] (.num 2)))
      = .response 200 (jsonrpcOk (.num 2) (callErrorResult "Error: Unknown tool: bogus_tool"))
    ∧ streamCallTool "bogus_tool" [] = [⟨"text", "Unknown tool: bogus_tool"⟩] := by
  have h := unknown_tool_success_envelope "bogus_tool" [] (.num 2)
    (by decide) (by decide) (by decide) (by decide) (by decide)
  exact ⟨h.1, h.2.2⟩

/-- C7: a well-formed request whose method is none of `initialize`,
`tools/list`, `tools/call` is answered by the error envelope with code
-32601 carrying the original request id. -/
theorem unknown_method_not_found (m params rid : Json)
    (h1 : m ≠ .str "initialize") (h2 : m ≠ .str "tools/list") (h3 : m ≠ .str "tools/call") :
    handle_mcp_request (.ok (.obj [("jsonrpc", .str "2.0"), ("method", m),
        ("params", params), ("id", rid)]))
      = .response 200 (jsonrpcErr rid (-32601) ("Method not found: " ++ pyStr m)) := by
  have hi : pyIsStr (some m) "initialize" = false := by
    cases m <;> simp [pyIsStr]
    intro hh
    exact h1 (by rw [hh])
  have hl : pyIsStr (some m) "tools/list" = false := by
    cases m <;> simp [pyIsStr]
    intro hh
    exact h2 (by rw [hh])
  have hc : pyIsStr (some m) "tools/call" = false := by
    cases m <;> simp [pyIsStr]
    intro hh
    exact h3 (by rw [hh])
  show handleDecoded (some m) params rid = _
  simp [handleDecoded, hi, hl, hc, pyStrOpt]

/-- The unknown-method theorem instantiated at method `ping`, id 7. -/
theorem unknown_method_not_found_witness :
    handle_mcp_request (.ok (.obj [("jsonrpc", .str "2.0"), ("method", .str "ping"),
        ("params", .obj []), ("id", .num 7)]))
      = .response 200 (jsonrpcErr (.num 7) (-32601) "Method not found: ping") := by
  have hne : ∀ s : String, s ≠ "ping" → Json.str "ping" ≠ .str s := by
    intro s hs hh
    injection hh with hv
    exact hs hv.symm
  exact unknown_method_not_found (.str "ping") (.obj []) (.num 7)
    (hne _ (by decide)) (hne _ (by decide)) (hne _ (by decide))

/-- C8: every response the dispatcher produces carries the id of the
request it answers (null when no id is determinable, as for either decode
failure) and contains exactly one of a `result` mapping or an `error`
object with integer code and string message; when no response is produced
the exception escaped instead. -/
theorem dispatcher_response_wellformed (input : DecodeResult) :
    outcomeOk (requestIdOf input) (handle_mcp_request input) := by
  match input with
  | .jsonError => exact envelopeOk_err .null (-32700) "Parse error"
  | .unicodeError m => exact envelopeOk_err .null (-32603) ("Internal error: " ++ m)
  | .ok .null => exact trivial
  | .ok (.bool b) => exact trivial
  | .ok (.num n) => exact trivial
  | .ok (.str s) => exact trivial
  | .ok (.arr items) => exact trivial
  | .ok (.obj fields) =>
    exact handleDecoded_ok (fields.lookup "method")
      ((fields.lookup "params").getD (.obj [])) ((fields.lookup "id").getD .null)

/-- C9: the streaming servers declare `a`/`b` (and `base`/`exponent`)
required in their tool schemas, yet their `call_tool` fetches them with
`dict.get` defaults — `0` for the arithmetic operands, `1` for the
divisor, `0`/`1` for power's base and exponent — so calls omitting
required fields compute normal results instead of failing. -/
theorem missing_arguments_use_defaults :
    streamToolsList.map (fun t =>
        (getKey t "name", (getKey t "inputSchema").bind (fun s => getKey s "required")))
      = [(some (.str "add_numbers"), some (.arr [.str "a", .str "b"])),
         (some (.str "subtract_numbers"), some (.arr [.str "a", .str "b"])),
         (some (.str "multiply_numbers"), some (.arr [.str "a", .str "b"])),
         (some (.str "divide_numbers"), some (.arr [.str "a", .str "b"])),
         (some (.str "power"), some (.arr [.str "base", .str "exponent"]))]
    ∧ streamCallTool "add_numbers" [] = [⟨"text", "The sum of 0 and 0 is 0"⟩]
    ∧ streamCallTool "subtract_numbers" [] = [⟨"text", "The difference of 0 and 0 is 0"⟩]
    ∧ streamCallTool "multiply_numbers" [] = [⟨"text", "The product of 0 and 0 is 0"⟩]
    ∧ streamCallTool "divide_numbers" [] = [⟨"text", "The quotient of 0 divided by 1 is 0.0"⟩]
    ∧ streamCallTool "divide_numbers" [("a", .num 9)]
        = [⟨"text", "The quotient of 9 divided by 1 is 9.0"⟩]
    ∧ streamCallTool "power" [] = [⟨"text", "0 raised to the power of 1 is 0"⟩]
    ∧ statefulCallTool "add_numbers" [("a", .num 5)] = [⟨"text", "The sum of 5 and 0 is 5"⟩]
    ∧ statefulCallTool "divide_numbers" [] = [⟨"text", "The quotient of 0 divided by 1 is 0.0"⟩]
    ∧ statefulCallTool "power" [] = [⟨"text", "0 raised to the power of 1 is 0"⟩] :=
  ⟨rfl, rfl, rfl, rfl, rfl, rfl, rfl, rfl, rfl, rfl⟩

/-- C10: on the dispatcher's tools/call path, `divide_numbers` with
divisor 0 yields a result envelope with content text
`Error: Cannot divide by zero` and no `isError` member; every exception
raised during tool dispatch yields a result envelope with `isError: true`
and content text `Error: ` followed by the exception message — with the
unknown-tool `ValueError` and the missing-argument `KeyError` as concrete
raised cases. -/
theorem divide_zero_vs_exception_envelopes :
    (∀ (args : List (String × Json)) (rid a : Json), args.lookup "a" = some a →
        args.lookup "b" = some (.num 0) →
        handle_mcp_request (.ok (toolsCallReq "divide_numbers" args rid))
          = .response 200 (jsonrpcOk rid (callResult "Error: Cannot divide by zero")))
    ∧ (∀ t, getKey (callResult t) "isError" = none)
    ∧ (∀ (name : String) (args : List (String × Json)) (rid : Json) (e : PyExn),
        dispatchToolCall (some (.str name)) (.obj args) = .error e →
        handle_mcp_request (.ok (toolsCallReq name args rid))
          = .response 200 (jsonrpcOk rid (callErrorResult ("Error: " ++ e.message))))
    ∧ (∀ t, getKey (callErrorResult t) "isError" = some (.bool true))
    ∧ dispatchToolCall (some (.str "mystery_tool")) (.obj [])
        = .error (.valueError "Unknown tool: mystery_tool")
    ∧ dispatchToolCall (some (.str "add_numbers")) (.obj [])
        = .error (.keyError "a") := by
  refine ⟨?_, fun t => rfl, ?_, fun t => rfl, rfl, rfl⟩
  · intro args rid a ha hb
    have hd := dispatch_divide_zero args hb
    rw [ha] at hd
    rw [handle_toolsCall "divide_numbers" args rid, hd]
  · intro name args rid e he
    rw [handle_toolsCall name args rid, he]

/-- The envelope-shape theorem instantiated on a zero division and an
unknown tool. -/
theorem divide_zero_vs_exception_envelopes_witness :
    handle_mcp_request (.ok (toolsCallReq "divide_numbers" [("a", .num 1), ("b", .num 0)] (.num 5)))
      = .response 200 (jsonrpcOk (.num 5) (callResult "Error: Cannot divide by zero"))
    ∧ handle_mcp_request (.ok (toolsCallReq "mystery_tool" [] (.num 6)))
      = .response 200 (jsonrpcOk (.num 6) (callErrorResult "Error: Unknown tool: mystery_tool")) := by
  have h := divide_zero_vs_exception_envelopes
  exact ⟨h.1 [("a", .num 1), ("b", .num 0)] (.num 5) (.num 1) rfl rfl,
         h.2.2.1 "mystery_tool" [] (.num 6) (.valueError "Unknown tool: mystery_tool") rfl⟩

/-- C3: in every store reachable by appends, positions per stream are
exactly `1, 2, …, n` — gapless, strictly increasing from 1 — and `replay`
from position `P` returns exactly the events with position greater than
`P`, in strictly increasing position order, none skipped or duplicated;
and an append (atomic with respect to position assignment) only extends
the replayed suffix, never disturbing what a concurrent replay already
returned (modelled from the spec, sections 3 and 4.5: the `event_store`
module is not part of this source tree). -/
theorem event_store_gapless_replay (st : InMemoryEventStore) (h : Reachable st)
    (sid : String) (p : Nat) :
    positionsOf st sid = List.range' 1 (st.eventsOf sid).length
    ∧ (st.replay sid p).map EventMessage.position
        = (List.range' 1 (st.eventsOf sid).length).filter (fun q => decide (p < q))
    ∧ ((st.replay sid p).map EventMessage.position).Pairwise (· < ·)
    ∧ (∀ e, e ∈ st.replay sid p ↔ e ∈ st.eventsOf sid ∧ p < e.position)
    ∧ (∀ sid2 payload kind,
        ((st.append sid2 payload kind).2).replay sid p
          = st.replay sid p
            ++ (if sid2 = sid then [⟨(st.eventsOf sid).length + 1, payload, kind⟩]
                else ([] : List EventMessage)).filter (fun e => decide (p < e.position))) := by
  have hpos : (st.eventsOf sid).map EventMessage.position
      = List.range' 1 (st.eventsOf sid).length := positions_reachable h sid
  refine ⟨positions_reachable h sid, ?_, ?_, ?_, ?_⟩
  · rw [InMemoryEventStore.replay, map_position_filter, hpos]
  · rw [InMemoryEventStore.replay, map_position_filter, hpos]
    exact List.Pairwise.filter _ (List.pairwise_lt_range' 1 _)
  · intro e
    rw [InMemoryEventStore.replay]
    simp [List.mem_filter]
  · intro sid2 payload kind
    by_cases hs : sid2 = sid
    · subst hs
      rw [InMemoryEventStore.replay, InMemoryEventStore.replay, eventsOf_append_self,
        List.filter_append]
      simp
    · rw [InMemoryEventStore.replay, InMemoryEventStore.replay,
        eventsOf_append_other st sid2 sid payload kind (fun hh => hs hh.symm)]
      simp [hs]

/-- A store holding two appended events on stream `s`. -/
def exampleStore : InMemoryEventStore :=
  (((InMemoryEventStore.mk []).append "s" (.str "hello") .log).2.append "s"
    (.str "world") .response).2

/-- The event-store theorem instantiated on the two-append store: replay
after position 1 returns exactly the event at position 2. -/
theorem event_store_gapless_replay_witness :
    Reachable exampleStore
    ∧ positionsOf exampleStore "s" = [1, 2]
    ∧ (exampleStore.replay "s" 1).map EventMessage.position = [2] := by
  have hr : Reachable exampleStore :=
    Reachable.append _ _ _ _ (Reachable.append _ _ _ _ Reachable.empty)
  have h := event_store_gapless_replay exampleStore hr "s" 1
  refine ⟨hr, ?_, ?_⟩
  · rw [h.1]
    rfl
  · rw [h.2.1]
    rfl
